import Mathlib

/-!
Shallow embedding of the aiohttp notes REST service
(`aiohttp_rest.py`, `models.py`, `aio-app.py`).

Modelling conventions:
* The SQLite `notes` table together with the SQLAlchemy session is a `DB`:
  the list of rows in rowid (insertion) order plus the autoincrement counter
  `nextId` for the integer primary key that `session.commit` assigns.
* JSON values are the inductive `Json`; `RestResource.encode` (`json.dumps`)
  is modelled by keeping the structured value in the response body.
* Python exceptions that the handlers can raise (`NameError` for the
  undefined `abort`, `AttributeError` on `None`, `TypeError` from `cls(**data)`,
  `AttributeError` from `getattr`) are the `PyError` inductive; a handler
  that can raise returns `Except PyError _`.
* Request JSON bodies for create/update carry the five schema fields and are
  modelled by the record `NotePayload`.
-/

namespace AiohttpRest

/-- A JSON value (the structured form that `json.dumps` serialises). -/
inductive Json where
  | str (s : String)
  | num (n : Int)
  | obj (fields : List (String × Json))
  | arr (elems : List Json)

/-- A five-field JSON request body `{title, description, created_at, created_by, priority}`
with the types the `notes` schema declares for the columns. -/
structure NotePayload where
  title : String
  description : String
  created_at : String
  created_by : String
  priority : Int
deriving Repr, DecidableEq

/-- A persisted row of the `notes` table (`models.py`, class `Note`):
integer primary key `id` plus the five data columns. -/
structure Note where
  id : Nat
  title : String
  description : String
  created_at : String
  created_by : String
  priority : Int
deriving Repr, DecidableEq

/-- The database state: rows in rowid order and the next primary key value. -/
structure DB where
  notes : List Note
  nextId : Nat
deriving Repr, DecidableEq

/-- Python exceptions reachable in the handlers. -/
inductive PyError where
  | nameError (n : String)
  | attributeErrorNone (attr : String)
  | attributeError (attr : String)
  | typeErrorUnexpectedKeyword (k : String)
  | typeErrorMissingArgument (k : String)
deriving Repr, DecidableEq

/-- An `aiohttp.web.Response`: status, optional JSON body, optional content type.
`Response(status=204)` has no body and no content type. -/
structure Response where
  status : Nat
  body : Option Json
  content_type : Option String

/-- `getattr(note, name)`: the six mapped columns succeed, anything else
raises `AttributeError`. -/
def Note.getattr (n : Note) (name : String) : Except PyError Json :=
  match name with
  | "id" => .ok (.num (n.id : Int))
  | "title" => .ok (.str n.title)
  | "description" => .ok (.str n.description)
  | "created_at" => .ok (.str n.created_at)
  | "created_by" => .ok (.str n.created_by)
  | "priority" => .ok (.num n.priority)
  | other => .error (.attributeError other)

/-- The `properties` tuple the app passes to `RestResource` in `aio-app.py`:
`('title', 'description', 'created_at', 'created_by', 'priority')` — no `id`. -/
def properties : List String :=
  ["title", "description", "created_at", "created_by", "priority"]

/-- `RestResource.render` over a properties tuple:
`OrderedDict((p, getattr(instance, p)) for p in props)`. -/
def renderWith (props : List String) (inst : Note) :
    Except PyError (List (String × Json)) :=
  props.mapM (fun p => (inst.getattr p).map (fun v => (p, v)))

/-- `RestResource.render` at the app's concrete `properties` tuple. -/
def render (inst : Note) : Except PyError (List (String × Json)) :=
  renderWith properties inst

/-- The value `render` produces on any note: the five data fields in
`properties` order, `id` excluded. -/
def renderPairs (n : Note) : List (String × Json) :=
  [("title", .str n.title), ("description", .str n.description),
   ("created_at", .str n.created_at), ("created_by", .str n.created_by),
   ("priority", .num n.priority)]

/-- One element of the list-body comprehension in `CollectionEndpoint.get`/`post`:
`{'id': note.id, 'title': note.title, ..., 'priority': note.priority}`. -/
def noteListEntry (note : Note) : Json :=
  .obj [("id", .num (note.id : Int)), ("title", .str note.title),
        ("description", .str note.description), ("created_at", .str note.created_at),
        ("created_by", .str note.created_by), ("priority", .num note.priority)]

/-- The collection-shaped body `{'notes': [ ... ]}` over all rows of the table. -/
def notesCollectionBody (db : DB) : Json :=
  .obj [("notes", .arr (db.notes.map noteListEntry))]

/-- `CollectionEndpoint.get`: 200 with the full collection body.  (The loop
that renders `self.resource.collection` builds a local `data` value that the
return statement never uses, so it has no effect on the response.) -/
def collectionGet (db : DB) : Response :=
  { status := 200
    body := some (notesCollectionBody db)
    content_type := some "application/json" }

/-- `Note(title=..., description=..., created_at=..., created_by=..., priority=...)`
followed by `session.add`/`session.commit`, which assigns the primary key. -/
def mkNote (id : Nat) (data : NotePayload) : Note :=
  { id := id
    title := data.title
    description := data.description
    created_at := data.created_at
    created_by := data.created_by
    priority := data.priority }

/-- `CollectionEndpoint.post`: insert one row with a storage-generated id,
return 201 with the re-queried full collection body. -/
def collectionPost (data : NotePayload) (db : DB) : Response × DB :=
  let note := mkNote db.nextId data
  let db2 : DB := { notes := db.notes ++ [note], nextId := db.nextId + 1 }
  ({ status := 201
     body := some (notesCollectionBody db2)
     content_type := some "application/json" }, db2)

/-- `session.query(Note).filter(Note.id == instance_id).first()`. -/
def findNote (db : DB) (instance_id : Nat) : Option Note :=
  db.notes.find? (fun n => n.id == instance_id)

/-- The 404 body `json.dumps({'not found': 404})` of `InstanceEndpoint.get`. -/
def notFoundBody : Json := .obj [("not found", .num 404)]

/-- The 404 response of `InstanceEndpoint.get`. -/
def notFoundResponse : Response :=
  { status := 404
    body := some notFoundBody
    content_type := some "application/json" }

/-- `InstanceEndpoint.get`: 404 with `{'not found': 404}` when no row matches,
otherwise 200 with `render_and_encode(instance)`. -/
def instanceGet (instance_id : Nat) (db : DB) : Except PyError Response :=
  match findNote db instance_id with
  | none => .ok notFoundResponse
  | some inst =>
      (render inst).map (fun r =>
        { status := 200
          body := some (.obj r)
          content_type := some "application/json" })

/-- The five field assignments of `InstanceEndpoint.put`; the primary key is
not assigned. -/
def setFields (note : Note) (data : NotePayload) : Note :=
  { note with
    title := data.title
    description := data.description
    created_at := data.created_at
    created_by := data.created_by
    priority := data.priority }

/-- Mutating the object returned by `first()` updates that row in place. -/
def updateFirst (notes : List Note) (instance_id : Nat) (data : NotePayload) :
    List Note :=
  match notes with
  | [] => []
  | n :: rest =>
      if n.id == instance_id then setFields n data :: rest
      else n :: updateFirst rest instance_id data

/-- `InstanceEndpoint.put`: fetch the row; with no existence check, the first
field assignment `note.title = data['title']` on `None` raises
`AttributeError` and the session is left unchanged; otherwise overwrite the
five fields, commit, and return 201 with the rendered record. -/
def instancePut (data : NotePayload) (instance_id : Nat) (db : DB) :
    Except PyError Response × DB :=
  match findNote db instance_id with
  | none => (.error (.attributeErrorNone "title"), db)
  | some note =>
      let note2 := setFields note data
      let db2 : DB := { db with notes := updateFirst db.notes instance_id data }
      ((render note2).map (fun r =>
        { status := 201
          body := some (.obj r)
          content_type := some "application/json" }), db2)

/-- `session.delete(note)` removes the fetched row. -/
def eraseFirst (notes : List Note) (instance_id : Nat) : List Note :=
  match notes with
  | [] => []
  | n :: rest => if n.id == instance_id then rest else n :: eraseFirst rest instance_id

/-- `InstanceEndpoint.delete`: when no row matches, the not-found branch calls
the undefined name `abort`, raising `NameError` before anything else runs;
otherwise delete the row, commit, and return a bare `Response(status=204)`. -/
def instanceDelete (instance_id : Nat) (db : DB) : Except PyError Response × DB :=
  match findNote db instance_id with
  | none => (.error (.nameError "abort"), db)
  | some _ =>
      let db2 : DB := { db with notes := eraseFirst db.notes instance_id }
      ((.ok { status := 204, body := none, content_type := none }), db2)

/-! ### The generic dispatcher (`RestEndpoint`) -/

/-- `DEFAULT_METHODS = ('GET', 'POST', 'PUT', 'DELETE')`. -/
def DEFAULT_METHODS : List String := ["GET", "POST", "PUT", "DELETE"]

/-- A registered handler: the Python method's name and the parameter names
`inspect.signature` reports for it (`self` excluded on a bound method). -/
structure Handler where
  name : String
  wanted_args : List String
deriving Repr, DecidableEq

/-- A value bound to a handler argument: a URL path parameter string, or the
raw request object. -/
inductive ArgVal where
  | pathParam (v : String)
  | request
deriving Repr, DecidableEq

/-- Lookup in `available_args = request.match_info.copy(); update({'request': request})`:
the key `'request'` always maps to the request object (the update overwrites),
every other key comes from the URL path parameters. -/
def availLookup (match_info : List (String × String)) (name : String) :
    Option ArgVal :=
  if name = "request" then some .request
  else (match_info.lookup name).map .pathParam

/-- `str.upper()`: uppercase the string character by character. -/
def pyUpper (s : String) : String := String.mk (s.data.map Char.toUpper)

/-- The outcome of `RestEndpoint.dispatch`: `HTTPMethodNotAllowed` with its
allowed list, `HttpBadRequest`, or the invocation of a handler with a named
argument binding. -/
inductive DispatchOutcome where
  | methodNotAllowed (allowed : List String)
  | badRequest
  | invoke (h : Handler) (args : List (String × ArgVal))
deriving Repr, DecidableEq

/-- `RestEndpoint.dispatch`: look up the handler for the uppercased request
method (405 listing `DEFAULT_METHODS` when absent); fail with 400 when some
wanted argument is unavailable; otherwise invoke the handler on
`{arg: available_args[arg] for arg in wanted_args}`. -/
def dispatch (methods : List (String × Handler)) (request_method : String)
    (match_info : List (String × String)) : DispatchOutcome :=
  match methods.lookup (pyUpper request_method) with
  | none => .methodNotAllowed DEFAULT_METHODS
  | some h =>
      if h.wanted_args.any (fun a => (availLookup match_info a).isNone) then
        .badRequest
      else
        .invoke h (h.wanted_args.filterMap (fun a =>
          (availLookup match_info a).map (fun v => (a, v))))

/-- The methods map `RestEndpoint.__init__` builds for `CollectionEndpoint`
by probing `DEFAULT_METHODS` in order: `get(self)` and `post(self, request)`. -/
def collectionMethods : List (String × Handler) :=
  [("GET", { name := "get", wanted_args := [] }),
   ("POST", { name := "post", wanted_args := ["request"] })]

/-- The methods map for `InstanceEndpoint`: `get(self, instance_id)`,
`put(self, request, instance_id)`, `delete(self, instance_id)`. -/
def instanceMethods : List (String × Handler) :=
  [("GET", { name := "get", wanted_args := ["instance_id"] }),
   ("PUT", { name := "put", wanted_args := ["request", "instance_id"] }),
   ("DELETE", { name := "delete", wanted_args := ["instance_id"] })]

/-! ### `Note.to_json` / `Note.from_json` (`models.py`) -/

/-- The `to_serialize` list of `Note.to_json`: the six columns, `id` included. -/
def to_serialize : List String :=
  ["id", "title", "description", "created_at", "created_by", "priority"]

/-- `Note.to_json`: `d[attr] = getattr(self, attr)` over `to_serialize`. -/
def Note.to_json (n : Note) : Except PyError (List (String × Json)) :=
  to_serialize.mapM (fun attr => (n.getattr attr).map (fun v => (attr, v)))

/-- The parameter names of `Note.__init__` (after `self`). -/
def init_params : List String :=
  ["title", "description", "created_at", "created_by", "priority"]

/-- A `Note` object as `Note.__init__` builds it: the five attributes set to
the given values, the primary key not yet assigned. -/
structure PyNote where
  title : Json
  description : Json
  created_at : Json
  created_by : Json
  priority : Json

/-- `Note.from_json(data) = cls(**data)`: keyword arguments not in
`Note.__init__`'s parameter list raise `TypeError` (unexpected keyword
argument), as does a missing required parameter; otherwise the constructor
runs on the five looked-up values. -/
def Note.from_json (data : List (String × Json)) : Except PyError PyNote :=
  match data.find? (fun kv => !(init_params.contains kv.1)) with
  | some kv => .error (.typeErrorUnexpectedKeyword kv.1)
  | none =>
      match data.lookup "title", data.lookup "description", data.lookup "created_at",
            data.lookup "created_by", data.lookup "priority" with
      | some t, some d, some ca, some cb, some p =>
          .ok { title := t, description := d, created_at := ca,
                created_by := cb, priority := p }
      | none, _, _, _, _ => .error (.typeErrorMissingArgument "title")
      | _, none, _, _, _ => .error (.typeErrorMissingArgument "description")
      | _, _, none, _, _ => .error (.typeErrorMissingArgument "created_at")
      | _, _, _, none, _ => .error (.typeErrorMissingArgument "created_by")
      | _, _, _, _, none => .error (.typeErrorMissingArgument "priority")

/-- Whether a row's five data fields equal a submitted payload's values. -/
def matchesPayload (data : NotePayload) (n : Note) : Bool :=
  n.title == data.title && n.description == data.description &&
  n.created_at == data.created_at && n.created_by == data.created_by &&
  n.priority == data.priority

/-- The keys of a JSON object. -/
def jsonObjKeys : Json → List String
  | .obj fields => fields.map Prod.fst
  | _ => []

/-- Whether an `Except` is a success. -/
def exceptIsOk {ε α : Type} : Except ε α → Bool
  | .ok _ => true
  | .error _ => false

/-! ### Concrete sample states (for witnesses and counterexamples) -/

/-- A concrete persisted note. -/
def sampleNote : Note :=
  { id := 1
    title := "A"
    description := "d"
    created_at := "t"
    created_by := "u"
    priority := 1 }

/-- A database holding just `sampleNote`. -/
def sampleDb : DB := { notes := [sampleNote], nextId := 2 }

/-- The freshly created empty database. -/
def emptyDb : DB := { notes := [], nextId := 1 }

/-- A concrete five-field request body. -/
def samplePayload : NotePayload :=
  { title := "B"
    description := "e"
    created_at := "s"
    created_by := "v"
    priority := 2 }

/-! ### Helper lemmas -/

/-- `render` never raises: it produces the five `properties` fields. -/
theorem render_eq (n : Note) : render n = .ok (renderPairs n) := rfl

/-- `setFields` leaves the primary key alone. -/
theorem setFields_id (n : Note) (data : NotePayload) :
    (setFields n data).id = n.id := rfl

/-- The updated row's five data fields are the submitted ones. -/
theorem matchesPayload_setFields (n : Note) (data : NotePayload) :
    matchesPayload data (setFields n data) = true := by
  simp [matchesPayload, setFields]

/-- The freshly inserted row's five data fields are the submitted ones. -/
theorem matchesPayload_mkNote (id : Nat) (data : NotePayload) :
    matchesPayload data (mkNote id data) = true := by
  simp [matchesPayload, mkNote]

/-- After `updateFirst`, the first row with the key is the overwritten one. -/
theorem find?_updateFirst (notes : List Note) (i : Nat) (data : NotePayload)
    (n : Note) (h : notes.find? (fun m => m.id == i) = some n) :
    (updateFirst notes i data).find? (fun m => m.id == i) =
      some (setFields n data) := by
  induction notes with
  | nil => simp at h
  | cons a rest ih =>
      cases ha : (a.id == i) with
      | true =>
          simp only [List.find?_cons, ha] at h
          cases h
          have hb : ((setFields n data).id == i) = true := by
            rw [setFields_id]
            exact ha
          simp [updateFirst, ha, List.find?_cons, hb]
      | false =>
          simp only [List.find?_cons, ha] at h
          simp [updateFirst, ha, List.find?_cons]
          exact ih h

/-- With pairwise-distinct primary keys, removing the found row leaves no
row with that key. -/
theorem find?_eraseFirst (notes : List Note) (i : Nat)
    (hnd : (notes.map Note.id).Nodup) (n : Note)
    (h : notes.find? (fun m => m.id == i) = some n) :
    (eraseFirst notes i).find? (fun m => m.id == i) = none := by
  induction notes with
  | nil => simp at h
  | cons a rest ih =>
      rw [List.map_cons, List.nodup_cons] at hnd
      cases ha : (a.id == i) with
      | true =>
          simp only [eraseFirst, ha, if_true]
          rw [List.find?_eq_none]
          intro x hx hpx
          apply hnd.1
          rw [List.mem_map]
          refine ⟨x, hx, ?_⟩
          have hxi : x.id = i := by simpa using hpx
          have hai : a.id = i := by simpa using ha
          omega
      | false =>
          simp only [List.find?_cons, ha] at h
          simp [eraseFirst, ha, List.find?_cons]
          intro x hx
          have hnone := List.find?_eq_none.mp (ih hnd.2 h) x hx
          simpa using hnone

/-! ### Claims -/

/-- C1: `POST /notes` inserts exactly one new row holding the submitted five
field values with the storage-generated identifier, returns 201 with the full
collection under the key `"notes"`, and a subsequent `GET /notes` includes
exactly one entry whose five field values equal the submitted ones (the
precondition: no pre-existing row already carries those field values). -/
theorem collection_post_spec (data : NotePayload) (db : DB)
    (h : ∀ n ∈ db.notes, matchesPayload data n = false) :
    (collectionPost data db).2.notes = db.notes ++ [mkNote db.nextId data] ∧
    (collectionPost data db).2.nextId = db.nextId + 1 ∧
    (collectionPost data db).1 =
      { status := 201
        body := some (notesCollectionBody (collectionPost data db).2)
        content_type := some "application/json" } ∧
    collectionGet (collectionPost data db).2 =
      { status := 200
        body := some (notesCollectionBody (collectionPost data db).2)
        content_type := some "application/json" } ∧
    (collectionPost data db).2.notes.countP (fun n => matchesPayload data n) = 1 := by
  refine ⟨rfl, rfl, rfl, rfl, ?_⟩
  have he : (collectionPost data db).2.notes = db.notes ++ [mkNote db.nextId data] := rfl
  rw [he, List.countP_append]
  have h0 : db.notes.countP (fun n => matchesPayload data n) = 0 := by
    rw [List.countP_eq_zero]
    intro x hx
    simp [h x hx]
  simp [h0, matchesPayload_mkNote]

/-- Witness for C1: from the empty database, exactly one listed entry
matches the submitted payload. -/
theorem collection_post_spec_witness :
    (collectionPost samplePayload emptyDb).2.notes.countP
      (fun n => matchesPayload samplePayload n) = 1 :=
  (collection_post_spec samplePayload emptyDb (by simp [emptyDb])).2.2.2.2

/-- C3: `PUT /notes/{id}` on an existing identifier overwrites the five data
fields with the body's values, leaves the identifier unchanged, returns 201
with the rendered record, and a subsequent fetch of that identifier returns
the new field values. -/
theorem instance_put_spec (data : NotePayload) (i : Nat) (db : DB) (n : Note)
    (h : findNote db i = some n) :
    instancePut data i db =
      (.ok { status := 201
             body := some (.obj (renderPairs (setFields n data)))
             content_type := some "application/json" },
       { db with notes := updateFirst db.notes i data }) ∧
    (setFields n data).id = n.id ∧
    matchesPayload data (setFields n data) = true ∧
    findNote { db with notes := updateFirst db.notes i data } i =
      some (setFields n data) ∧
    instanceGet i { db with notes := updateFirst db.notes i data } =
      .ok { status := 200
            body := some (.obj (renderPairs (setFields n data)))
            content_type := some "application/json" } := by
  have hf : findNote { db with notes := updateFirst db.notes i data } i =
      some (setFields n data) := find?_updateFirst db.notes i data n h
  refine ⟨?_, setFields_id n data, matchesPayload_setFields n data, hf, ?_⟩
  · simp [instancePut, h, render_eq, Except.map]
  · simp [instanceGet, hf, render_eq, Except.map]

/-- Witness for C3 at the sample database's existing identifier 1. -/
theorem instance_put_spec_witness :
    instancePut samplePayload 1 sampleDb =
      (.ok { status := 201
             body := some (.obj (renderPairs (setFields sampleNote samplePayload)))
             content_type := some "application/json" },
       { sampleDb with notes := updateFirst sampleDb.notes 1 samplePayload }) :=
  (instance_put_spec samplePayload 1 sampleDb sampleNote rfl).1

/-- C4: `DELETE /notes/{id}` on an existing identifier removes that row and
returns a bare 204 with no body, after which `GET` on that identifier
returns 404; on a missing identifier the handler fails with the `NameError`
of the undefined `abort` instead of returning a response.  (Primary keys are
pairwise distinct, as the integer primary key column guarantees.) -/
theorem instance_delete_spec (i : Nat) (db : DB) :
    ((db.notes.map Note.id).Nodup → ∀ n, findNote db i = some n →
       instanceDelete i db =
         (.ok { status := 204, body := none, content_type := none },
          { db with notes := eraseFirst db.notes i }) ∧
       findNote { db with notes := eraseFirst db.notes i } i = none ∧
       instanceGet i { db with notes := eraseFirst db.notes i } =
         .ok notFoundResponse) ∧
    (findNote db i = none →
       instanceDelete i db = (.error (.nameError "abort"), db)) := by
  constructor
  · intro hnd n h
    have hf : findNote { db with notes := eraseFirst db.notes i } i = none :=
      find?_eraseFirst db.notes i hnd n h
    refine ⟨?_, hf, ?_⟩
    · simp [instanceDelete, h]
    · simp [instanceGet, hf]
  · intro h
    simp [instanceDelete, h]

/-- Witness for C4: deleting the existing identifier 1 and the missing
identifier 7 of the sample database. -/
theorem instance_delete_spec_witness :
    instanceDelete 1 sampleDb =
      (.ok { status := 204, body := none, content_type := none },
       { sampleDb with notes := eraseFirst sampleDb.notes 1 }) ∧
    instanceDelete 7 sampleDb = (.error (.nameError "abort"), sampleDb) :=
  ⟨((instance_delete_spec 1 sampleDb).1 (by simp [sampleDb, sampleNote])
      sampleNote rfl).1,
   (instance_delete_spec 7 sampleDb).2 rfl⟩

/-- C2: `GET /notes/{id}` returns 404 with body `{"not found": 404}` when no
note matches the identifier, and 200 with the rendered note object when one
does. -/
theorem instance_get_spec (i : Nat) (db : DB) :
    (findNote db i = none → instanceGet i db = .ok notFoundResponse) ∧
    (∀ n, findNote db i = some n →
      instanceGet i db = .ok
        { status := 200
          body := some (.obj (renderPairs n))
          content_type := some "application/json" }) := by
  constructor
  · intro h
    simp [instanceGet, h]
  · intro n h
    simp [instanceGet, h, render_eq, Except.map]

/-- Witness for C2: both branches at concrete inputs. -/
theorem instance_get_spec_witness :
    instanceGet 2 sampleDb = .ok notFoundResponse ∧
    instanceGet 1 sampleDb = .ok
      { status := 200
        body := some (.obj (renderPairs sampleNote))
        content_type := some "application/json" } :=
  ⟨(instance_get_spec 2 sampleDb).1 rfl,
   (instance_get_spec 1 sampleDb).2 sampleNote rfl⟩

/-- C7: rendering the note created from a payload reproduces exactly the
submitted field values, identifier excluded. -/
theorem render_create_round_trip (data : NotePayload) (id : Nat) :
    render (mkNote id data) = .ok
      [("title", .str data.title), ("description", .str data.description),
       ("created_at", .str data.created_at), ("created_by", .str data.created_by),
       ("priority", .num data.priority)] := rfl

/-- C9: `PUT /notes/{id}` on a missing identifier performs no existence
check: the fetch yields no record, the first field assignment raises the
`AttributeError` of attribute access on `None`, no NotFound response is
produced, and the stored collection is unchanged. -/
theorem instance_put_missing (data : NotePayload) (i : Nat) (db : DB)
    (h : findNote db i = none) :
    instancePut data i db = (.error (.attributeErrorNone "title"), db) := by
  simp [instancePut, h]

/-- Witness for C9 at a concrete missing identifier. -/
theorem instance_put_missing_witness :
    instancePut samplePayload 5 sampleDb =
      (.error (.attributeErrorNone "title"), sampleDb) :=
  instance_put_missing samplePayload 5 sampleDb rfl

/-- Keys of the argument binding: when every wanted argument is available,
the binding binds exactly the handler's declared argument names. -/
theorem binding_keys (l : List String) (mi : List (String × String))
    (hall : l.all (fun a => (availLookup mi a).isSome) = true) :
    (l.filterMap (fun a => (availLookup mi a).map (fun v => (a, v)))).map
      Prod.fst = l := by
  induction l with
  | nil => rfl
  | cons a rest ih =>
      rw [List.all_cons, Bool.and_eq_true] at hall
      obtain ⟨v, hv⟩ := Option.isSome_iff_exists.mp hall.1
      simp [List.filterMap_cons, hv, ih hall.2]

/-- C5: dispatch of a request whose HTTP method has no registered handler on
the collection or the instance endpoint fails with method-not-allowed whose
allowed list is `DEFAULT_METHODS`, i.e. GET, POST, PUT, DELETE; in
particular PATCH on either route and PUT or DELETE on the collection
route. -/
theorem dispatch_method_not_allowed (m : String)
    (mi : List (String × String)) :
    (collectionMethods.lookup (pyUpper m) = none →
       dispatch collectionMethods m mi = .methodNotAllowed DEFAULT_METHODS) ∧
    (instanceMethods.lookup (pyUpper m) = none →
       dispatch instanceMethods m mi = .methodNotAllowed DEFAULT_METHODS) ∧
    DEFAULT_METHODS = ["GET", "POST", "PUT", "DELETE"] ∧
    dispatch collectionMethods "PATCH" mi = .methodNotAllowed DEFAULT_METHODS ∧
    dispatch collectionMethods "PUT" mi = .methodNotAllowed DEFAULT_METHODS ∧
    dispatch collectionMethods "DELETE" mi = .methodNotAllowed DEFAULT_METHODS ∧
    dispatch instanceMethods "PATCH" mi = .methodNotAllowed DEFAULT_METHODS ∧
    dispatch instanceMethods "POST" mi = .methodNotAllowed DEFAULT_METHODS := by
  refine ⟨?_, ?_, rfl, rfl, rfl, rfl, rfl, rfl⟩
  · intro h
    simp [dispatch, h]
  · intro h
    simp [dispatch, h]

/-- Witness for C5: PATCH on the collection endpoint. -/
theorem dispatch_method_not_allowed_witness :
    dispatch collectionMethods "PATCH" [] =
      .methodNotAllowed DEFAULT_METHODS :=
  (dispatch_method_not_allowed "PATCH" []).2.2.2.1

/-- C6 counterexample: a recognized path parameter the handler does not also
request does not yield bad-request — dispatch invokes the handler and simply
ignores the extra parameter. -/
theorem dispatch_extra_param_counterexample :
    dispatch instanceMethods "GET" [("instance_id", "1"), ("extra", "x")] =
      .invoke { name := "get", wanted_args := ["instance_id"] }
        [("instance_id", .pathParam "1")] ∧
    dispatch instanceMethods "GET" [("instance_id", "1"), ("extra", "x")] ≠
      .badRequest := by
  constructor
  · rfl
  · decide

/-- C6 (amended): with a handler registered for the method, dispatch fails
with bad-request exactly when some declared argument name of the handler is
unavailable from the URL path parameters plus the request object; otherwise
it invokes that handler with exactly its declared argument names bound; a
path parameter the handler does not request is ignored, not rejected. -/
theorem dispatch_bad_request_iff (methods : List (String × Handler))
    (m : String) (mi : List (String × String)) (h : Handler)
    (hm : methods.lookup (pyUpper m) = some h) :
    (dispatch methods m mi = .badRequest ↔
       h.wanted_args.any (fun a => (availLookup mi a).isNone) = true) ∧
    (h.wanted_args.all (fun a => (availLookup mi a).isSome) = true →
       dispatch methods m mi =
         .invoke h (h.wanted_args.filterMap (fun a =>
           (availLookup mi a).map (fun v => (a, v)))) ∧
       (h.wanted_args.filterMap (fun a =>
           (availLookup mi a).map (fun v => (a, v)))).map Prod.fst =
         h.wanted_args) := by
  constructor
  · unfold dispatch
    rw [hm]
    by_cases hany : h.wanted_args.any (fun a => (availLookup mi a).isNone) = true
    · simp [hany]
    · simp [hany]
  · intro hall
    have hany : h.wanted_args.any (fun a => (availLookup mi a).isNone) = false := by
      rw [List.any_eq_false]
      intro x hx hcontra
      have hs := List.all_eq_true.mp hall x hx
      rw [Option.isNone_iff_eq_none] at hcontra
      rw [hcontra] at hs
      simp at hs
    constructor
    · unfold dispatch
      rw [hm]
      simp [hany]
    · exact binding_keys h.wanted_args mi hall

/-- Witness for C6 (amended): PUT on the instance endpoint with no path
parameters is bad-request, since `instance_id` cannot be bound. -/
theorem dispatch_bad_request_iff_witness :
    dispatch instanceMethods "PUT" [] = .badRequest :=
  ((dispatch_bad_request_iff instanceMethods "PUT" []
      { name := "put", wanted_args := ["request", "instance_id"] } rfl).1).mpr
    (by decide)

/-- C8 counterexample: at a concrete note, applying `from_json` to the
mapping produced by `to_json` does not succeed — it raises the `TypeError`
of the unexpected keyword argument `id`. -/
theorem from_json_to_json_counterexample :
    exceptIsOk ((Note.to_json sampleNote).bind Note.from_json) = false ∧
    (Note.to_json sampleNote).bind Note.from_json =
      .error (.typeErrorUnexpectedKeyword "id") :=
  ⟨rfl, rfl⟩

/-- C8 (amended): for every note, `from_json` applied to `to_json`'s output
fails with the `TypeError` of the unexpected keyword argument `id`, because
`to_json` serialises the `id` column which `Note.__init__` does not accept:
`to_json`'s output is never a valid input to `from_json`. -/
theorem from_json_to_json_fails (n : Note) :
    (Note.to_json n).bind Note.from_json =
      .error (.typeErrorUnexpectedKeyword "id") := rfl

/-- C10: success bodies of instance GET and PUT hold exactly the five
`properties` fields — `id` excluded, since rendering projects through the
`properties` tuple — while every entry of the collection GET body does
include `id`. -/
theorem body_field_keys (data : NotePayload) (i : Nat) (db : DB) (n : Note) :
    (findNote db i = some n →
       instanceGet i db = .ok
         { status := 200
           body := some (.obj (renderPairs n))
           content_type := some "application/json" } ∧
       (instancePut data i db).1 = .ok
         { status := 201
           body := some (.obj (renderPairs (setFields n data)))
           content_type := some "application/json" }) ∧
    (renderPairs n).map Prod.fst = properties ∧
    (renderPairs (setFields n data)).map Prod.fst = properties ∧
    "id" ∉ properties ∧
    jsonObjKeys (noteListEntry n) =
      ["id", "title", "description", "created_at", "created_by", "priority"] ∧
    "id" ∈ jsonObjKeys (noteListEntry n) ∧
    collectionGet db =
      { status := 200
        body := some (.obj [("notes", .arr (db.notes.map noteListEntry))])
        content_type := some "application/json" } := by
  refine ⟨?_, rfl, rfl, by decide, rfl, ?_, rfl⟩
  · intro h
    constructor
    · simp [instanceGet, h, render_eq, Except.map]
    · simp [instancePut, h, render_eq, Except.map]
  · rw [show jsonObjKeys (noteListEntry n) =
        ["id", "title", "description", "created_at", "created_by", "priority"]
      from rfl]
    decide

/-- Witness for C10: the instance GET success body at the sample database. -/
theorem body_field_keys_witness :
    instanceGet 1 sampleDb = .ok
      { status := 200
        body := some (.obj (renderPairs sampleNote))
        content_type := some "application/json" } :=
  ((body_field_keys samplePayload 1 sampleDb sampleNote).1 rfl).1

end AiohttpRest
